import Mathlib

/-!
Verification of the subspace `Option` / `Choice` storage engine spec against
the repository's source.

The development shallowly embeds:
* `subspace/option/option.h` — the `Option<T>` public surface (move
  construction/assignment, `filter`, the `unwrap` family, `take`,
  `clone`/`clone_from`, `operator==`, `operator<=>`);
* the choice storage union of `src/unnamed/part_006`
  (`sus::choice_type::__private::Storage`) — `destroy` and the four
  comparison operations;
* `sus/num/__private/int_log10.h` — the branchless decimal-digit counter.

C++ fatal contract violations (`sus::check`) are modelled by returning
`none`; machine integers are `Nat` with explicit `% 2 ^ 32` where overflow
is possible.
-/

/-- The `Some` / `None` discriminant, from `subspace/option/state.h`
(used via `using State::None; using State::Some` in option.h). -/
inductive State where
  | None
  | Some
deriving DecidableEq, Repr

/-- Modelled from the spec: `subspace/option/__private/storage.h` is not under
`src/` (option.h only calls into it).  Spec §3 "Storage Cell" says the cell is
a payload slot plus a discriminant, with the invariant that "discriminant
accurately reflects whether the storage cell is live".  We therefore model the
cell as the live payload when the discriminant is `Some`, and nothing when it
is `None`. -/
structure Storage (α : Type) where
  slot : Option α
deriving DecidableEq, Repr

/-- Modelled from the spec: the cell's discriminant read (`t_.state()`). -/
def Storage.state (s : Storage α) : State :=
  match s.slot with
  | some _ => State.Some
  | none => State.None

/-- Modelled from the spec: `t_.take_and_set_none()` — "slot ... becomes dead
... on move-out (take)".  The payload is moved out (not destroyed) and the
cell becomes `None`.  Only called by option.h when the state is `Some`; the
model returns the slot contents. -/
def Storage.take_and_set_none (s : Storage α) : Option α × Storage α :=
  (s.slot, ⟨none⟩)

/-- Modelled from the spec: `t_.set_none()` — "a constructed slot is destroyed
exactly once before being reused"; destroys the live payload (returned as the
list of payloads whose destructor ran) and sets the state to `None`. -/
def Storage.set_none (s : Storage α) : Storage α × List α :=
  (⟨none⟩, s.slot.toList)

/-- Modelled from the spec: `t_.set_some(v)` — makes the cell live with `v`
(constructing into a dead cell, or assigning over a live one; assignment runs
no payload destructor). -/
def Storage.set_some (_s : Storage α) (v : α) : Storage α :=
  ⟨some v⟩

/-- Modelled from the spec: `t_.construct_from_none(v)` — constructs `v` into
a cell whose state is `None` (all option.h call sites check this first). -/
def Storage.construct_from_none (_s : Storage α) (v : α) : Storage α :=
  ⟨some v⟩

/-- `Option<T>` from `subspace/option/option.h` (named `SusOption` because
Lean's own `Option` is taken): a single storage cell member `t_`
(option.h:1456). -/
structure SusOption (α : Type) where
  t_ : Storage α
deriving DecidableEq, Repr

/-- `Option() = default` (option.h:152): holding no value. -/
def SusOption.mkEmpty : SusOption α := ⟨⟨none⟩⟩

/-- `Option::with(t)` (option.h:167-182): holds the given value (for
non-reference `T` the private ctor stores it in `t_`). -/
def SusOption.with (v : α) : SusOption α := ⟨⟨some v⟩⟩

/-- `Option::is_some()` (option.h:359-361). -/
def SusOption.is_some (o : SusOption α) : Bool :=
  o.t_.state = State.Some

/-- `Option::is_none()` (option.h:363-365). -/
def SusOption.is_none (o : SusOption α) : Bool :=
  o.t_.state = State.None

/-- `Option(Option&& o)` (option.h:277-285).  When
`IsTrivialMoveCtorOrRef<T>` holds the constructor is `= default`, which for a
trivially movable member is a bitwise copy leaving the source untouched;
otherwise the hand-written body runs
`if (o.t_.state() == Some) t_.construct_from_none(o.t_.take_and_set_none())`.
Returns `(constructed option, source after the move)`. -/
def SusOption.moveCtor (trivialMove : Bool) (o : SusOption α) :
    SusOption α × SusOption α :=
  if trivialMove then
    (o, o)
  else
    match o.t_.slot with
    | some v =>
        let (_, src) := o.t_.take_and_set_none
        (⟨Storage.construct_from_none ⟨none⟩ v⟩, ⟨src⟩)
    | none => (SusOption.mkEmpty, o)

/-- `Option& operator=(Option&& o)` (option.h:314-326).  Trivial path is
`= default` (bitwise copy, source untouched); the hand-written path runs
`if (o Some) t_.set_some(o.t_.take_and_set_none()) else if (self Some)
t_.set_none()`.  Returns `(self after, source after, payloads destroyed)`. -/
def SusOption.moveAssign (trivialMoveAssign : Bool) (self o : SusOption α) :
    SusOption α × SusOption α × List α :=
  if trivialMoveAssign then
    (o, o, [])
  else
    match o.t_.slot with
    | some v =>
        let (_, src) := o.t_.take_and_set_none
        (⟨self.t_.set_some v⟩, ⟨src⟩, [])
    | none =>
        match self.t_.slot with
        | some _ =>
            let (t, destroyed) := self.t_.set_none
            (⟨t⟩, o, destroyed)
        | none => (self, o, [])

/-- `Option& operator=(const Option& o)` (option.h:293-305).  Trivial path is
`= default`; the hand-written path runs `if (o Some)
t_.set_some(copy_to_storage(o.t_.val())) else if (self Some) t_.set_none()`.
Returns `(self after, payloads destroyed)`; the source is `const`. -/
def SusOption.copyAssign (trivialCopyAssign : Bool) (self o : SusOption α) :
    SusOption α × List α :=
  if trivialCopyAssign then
    (o, [])
  else
    match o.t_.slot with
    | some v => (⟨self.t_.set_some v⟩, [])
    | none =>
        match self.t_.slot with
        | some _ =>
            let (t, destroyed) := self.t_.set_none
            (⟨t⟩, destroyed)
        | none => (self, [])

/-- `Option::filter(p)` (option.h:768-781), an rvalue method consuming the
source.  Returns `(returned option, source after, payloads destroyed,
number of times p was invoked)`. -/
def SusOption.filter (o : SusOption α) (p : α → Bool) :
    SusOption α × SusOption α × List α × Nat :=
  match o.t_.slot with
  | some v =>
      if p v then
        let (_, src) := o.t_.take_and_set_none
        (SusOption.with v, ⟨src⟩, [], 1)
      else
        let (src, destroyed) := o.t_.set_none
        (SusOption.mkEmpty, ⟨src⟩, destroyed, 1)
  | none => (SusOption.mkEmpty, o, [], 0)

/-- `Option::unwrap()` (option.h:401-404): `check(state == Some)` then
`take_and_set_none`.  A failed `sus::check` terminates the process; the model
returns `none` for it, and otherwise `(value, source after)`. -/
def SusOption.unwrap (o : SusOption α) : Option (α × SusOption α) :=
  match o.t_.slot with
  | some v =>
      let (_, src) := o.t_.take_and_set_none
      some (v, ⟨src⟩)
  | none => none

/-- `Option::expect(msg)` (option.h:390-395): `check_with_message(state ==
Some, msg)` then `unwrap_unchecked`.  The message only decorates the fatal
diagnostic. -/
def SusOption.expect (o : SusOption α) (_msg : String) :
    Option (α × SusOption α) :=
  match o.t_.slot with
  | some v =>
      let (_, src) := o.t_.take_and_set_none
      some (v, ⟨src⟩)
  | none => none

/-- `Option::unwrap_or(default_result)` (option.h:412-418). -/
def SusOption.unwrap_or (o : SusOption α) (default_result : α) :
    α × SusOption α :=
  match o.t_.slot with
  | some v =>
      let (_, src) := o.t_.take_and_set_none
      (v, ⟨src⟩)
  | none => (default_result, o)

/-- `Option::unwrap_or_else(f)` (option.h:422-428). -/
def SusOption.unwrap_or_else (o : SusOption α) (f : Unit → α) :
    α × SusOption α :=
  match o.t_.slot with
  | some v =>
      let (_, src) := o.t_.take_and_set_none
      (v, ⟨src⟩)
  | none => (f (), o)

/-- `Option::unwrap_or_default()` (option.h:435-443): returns `T()` for the
`None` state, modelled by the `Inhabited` default. -/
def SusOption.unwrap_or_default [Inhabited α] (o : SusOption α) :
    α × SusOption α :=
  match o.t_.slot with
  | some v =>
      let (_, src) := o.t_.take_and_set_none
      (v, ⟨src⟩)
  | none => (default, o)

/-- `Option::take()` (option.h:679-684).  Returns
`(returned option, source after)`. -/
def SusOption.take (o : SusOption α) : SusOption α × SusOption α :=
  match o.t_.slot with
  | some v =>
      let (_, src) := o.t_.take_and_set_none
      (SusOption.with v, ⟨src⟩)
  | none => (SusOption.mkEmpty, o)

/-- `Option::clone()` (option.h:333-340), for `Clone<T> && !CopyOrRef<T>`:
`sus::clone` (sus/mem/clone.h:113-121) calls `source.clone()` for non-Copy
types, modelled by `cloneFn`. -/
def SusOption.clone (cloneFn : α → α) (o : SusOption α) : SusOption α :=
  match o.t_.slot with
  | some v => SusOption.with (cloneFn v)
  | none => SusOption.mkEmpty

/-- `sus::mem::clone_into(dest, source)` (sus/mem/clone.h:150-159) for a
non-Copy `Clone` type: calls `dest.clone_from(source)` when the type is
`CloneFrom` (in-place), else `dest = source.clone()`.  Either way the result
is a new payload value in the same slot; no payload destructor runs. -/
def clone_into (hasCloneFrom : Bool) (cloneFn : α → α)
    (cloneFromFn : α → α → α) (dest src : α) : α :=
  if hasCloneFrom then cloneFromFn dest src else cloneFn src

/-- `Option::clone_from(source)` (option.h:343-353), for
`Clone<T> && !CopyOrRef<T>`: when both sides are `Some` it runs
`clone_into(t_.val_mut(), source.t_.val())` in place; otherwise
`*this = source.clone()` (the hand-written assignment of option.h:318-326,
since a `Clone` non-Copy type is handled by those paths).  The aliasing guard
`&source == this` is an address-identity optimization that a value model
cannot (and need not) express.  Returns `(self after, payloads destroyed)`. -/
def SusOption.clone_from (hasCloneFrom : Bool) (cloneFn : α → α)
    (cloneFromFn : α → α → α) (self source : SusOption α) :
    SusOption α × List α :=
  match self.t_.slot, source.t_.slot with
  | some w, some v =>
      (⟨⟨some (clone_into hasCloneFrom cloneFn cloneFromFn w v)⟩⟩, [])
  | some _, none =>
      let (t, destroyed) := self.t_.set_none
      (⟨t⟩, destroyed)
  | none, some v => (⟨self.t_.set_some (cloneFn v)⟩, [])
  | none, none => (self, [])

/-- `operator==(const Option&, const Option&)` (option.h:1185-1196), with the
payload equality `eqv` standing for `T`'s `operator==`. -/
def SusOption.eqOpt (eqv : α → α → Bool) (l r : SusOption α) : Bool :=
  match l.t_.slot with
  | some lv =>
      match r.t_.slot with
      | some rv => eqv lv rv
      | none => false
  | none => r.is_none

/-- `operator<=>(const Option&, const Option&)` (option.h:1227-1246), with
the payload comparison `cmp` standing for `T`'s `operator<=>`
(`Ordering.eq` models `std::strong_ordering::equivalent`). -/
def SusOption.cmpOpt (cmp : α → α → Ordering) (l r : SusOption α) :
    Ordering :=
  match l.t_.slot with
  | some lv =>
      match r.t_.slot with
      | some rv => cmp lv rv
      | none => Ordering.gt
  | none =>
      match r.t_.slot with
      | some _ => Ordering.lt
      | none => Ordering.eq

/-!
The choice storage union, `sus::choice_type::__private::Storage` of
`src/unnamed/part_006`.  One union level per alternative; level `I` holds
either `Nothing` (a void alternative), a single-value `Tuple<T>`, or a
multi-value `Tuple<Ts...>` (`sizeof...(Ts) > 1`), together with the next
level `more_`.  The model keeps the list of remaining levels; each level
carries its payload value (a placeholder for the whole tuple) so that the
comparison operations can be expressed.  A failed `sus::check` (the base
level reached with a different index) is modelled by `none`; the union's own
destructor (`~Storage`) has an empty body and destroys no payload.
-/

/-- One level of the choice storage: a `Nothing` alternative, a single-value
`Tuple<T>` alternative, or a multi-value `Tuple<Ts...>` alternative, carrying
its (would-be) payload value. -/
inductive Lev (α : Type) where
  | nothing
  | single (a : α)
  | multi (a : α)
deriving DecidableEq, Repr

/-- Whether the level's alternative stores a payload (`Nothing` does not). -/
def Lev.hasPayload : Lev α → Bool
  | Lev.nothing => false
  | Lev.single _ => true
  | Lev.multi _ => true

/-- `Storage::destroy(index)` (part_006:229-236 payload levels with a tail,
343-348 `Nothing` levels with a tail, 569-572 and 705-708 payload base
levels, 631 the `Nothing` base level).  At a payload level matching the
index, `tuple_.~Type()` runs; otherwise the call recurses into `more_` and
then runs `more_.~Storage()` (which destroys nothing).  Base levels
`sus::check(index == I)` first.  `i` is the template parameter `I` of the
current level; the result is the list of levels whose payload destructor
ran, or `none` when a `sus::check` failed. -/
def ChoiceStorage.destroy (index : Nat) : Nat → List (Lev α) → Option (List Nat)
  | i, [l] =>
      if index = i then some (if l.hasPayload then [i] else []) else none
  | i, l :: rest =>
      if index = i then some (if l.hasPayload then [i] else [])
      else ChoiceStorage.destroy index (i + 1) rest
  | _, [] => none

/-- `Storage::eq(index, other)` (part_006:237-243, 349-355, 473-479, 573-576,
632-635, 709-712): at the level matching the index, compare the payloads
(`true` for `Nothing`); otherwise recurse into `more_`.  `eqv` stands for the
payload type's `operator==`.  The two compared storages share one shape; a
shape mismatch (impossible for real instantiations) yields `none`, as does a
failed base-level `sus::check`. -/
def ChoiceStorage.eq (eqv : α → α → Bool) (index : Nat) :
    Nat → List (Lev α) → List (Lev α) → Option Bool
  | i, [Lev.nothing], [Lev.nothing] =>
      if index = i then some true else none
  | i, [Lev.single a], [Lev.single b] =>
      if index = i then some (eqv a b) else none
  | i, [Lev.multi a], [Lev.multi b] =>
      if index = i then some (eqv a b) else none
  | i, Lev.nothing :: r, Lev.nothing :: r' =>
      if index = i then some true
      else ChoiceStorage.eq eqv index (i + 1) r r'
  | i, Lev.single a :: r, Lev.single b :: r' =>
      if index = i then some (eqv a b)
      else ChoiceStorage.eq eqv index (i + 1) r r'
  | i, Lev.multi a :: r, Lev.multi b :: r' =>
      if index = i then some (eqv a b)
      else ChoiceStorage.eq eqv index (i + 1) r r'
  | _, _, _ => none

/-- `Storage::strong_ord(index, other)` (part_006:244-251, 356-362, 480-486,
577-581, 636-639, 713-716).  At the level matching the index,
`std::strong_order(tuple_, other.tuple_)` (equivalent for `Nothing`);
at a non-live `Nothing` or single-value level, recurse via
`more_.strong_ord`.  At a non-live multi-value level (part_006:249) the code
recurses via `more_.ord(index, other.more_)` — but no `Storage`
specialization declares a member `ord`, so that call cannot compile for any
instantiation reaching it; the model returns `none` for it.  `cmp` stands
for the payload type's strong ordering. -/
def ChoiceStorage.strong_ord (cmp : α → α → Ordering) (index : Nat) :
    Nat → List (Lev α) → List (Lev α) → Option Ordering
  | i, [Lev.nothing], [Lev.nothing] =>
      if index = i then some Ordering.eq else none
  | i, [Lev.single a], [Lev.single b] =>
      if index = i then some (cmp a b) else none
  | i, [Lev.multi a], [Lev.multi b] =>
      if index = i then some (cmp a b) else none
  | i, Lev.nothing :: r, Lev.nothing :: r' =>
      if index = i then some Ordering.eq
      else ChoiceStorage.strong_ord cmp index (i + 1) r r'
  | i, Lev.single a :: r, Lev.single b :: r' =>
      if index = i then some (cmp a b)
      else ChoiceStorage.strong_ord cmp index (i + 1) r r'
  | i, Lev.multi a :: _, Lev.multi b :: _ =>
      if index = i then some (cmp a b)
      else none
  | _, _, _ => none

/-- `Storage::weak_ord(index, other)` (part_006:252-259, 363-369, 487-493,
582-586, 640-643, 717-720): same recursion, all levels recursing via
`more_.weak_ord`. -/
def ChoiceStorage.weak_ord (cmp : α → α → Ordering) (index : Nat) :
    Nat → List (Lev α) → List (Lev α) → Option Ordering
  | i, [Lev.nothing], [Lev.nothing] =>
      if index = i then some Ordering.eq else none
  | i, [Lev.single a], [Lev.single b] =>
      if index = i then some (cmp a b) else none
  | i, [Lev.multi a], [Lev.multi b] =>
      if index = i then some (cmp a b) else none
  | i, Lev.nothing :: r, Lev.nothing :: r' =>
      if index = i then some Ordering.eq
      else ChoiceStorage.weak_ord cmp index (i + 1) r r'
  | i, Lev.single a :: r, Lev.single b :: r' =>
      if index = i then some (cmp a b)
      else ChoiceStorage.weak_ord cmp index (i + 1) r r'
  | i, Lev.multi a :: r, Lev.multi b :: r' =>
      if index = i then some (cmp a b)
      else ChoiceStorage.weak_ord cmp index (i + 1) r r'
  | _, _, _ => none

/-- `Storage::partial_ord(index, other)` (part_006:260-267, 370-376, 494-500,
587-591, 644-647, 721-724): same recursion, all levels recursing via
`more_.partial_ord`. -/
def ChoiceStorage.partial_ord (cmp : α → α → Ordering) (index : Nat) :
    Nat → List (Lev α) → List (Lev α) → Option Ordering
  | i, [Lev.nothing], [Lev.nothing] =>
      if index = i then some Ordering.eq else none
  | i, [Lev.single a], [Lev.single b] =>
      if index = i then some (cmp a b) else none
  | i, [Lev.multi a], [Lev.multi b] =>
      if index = i then some (cmp a b) else none
  | i, Lev.nothing :: r, Lev.nothing :: r' =>
      if index = i then some Ordering.eq
      else ChoiceStorage.partial_ord cmp index (i + 1) r r'
  | i, Lev.single a :: r, Lev.single b :: r' =>
      if index = i then some (cmp a b)
      else ChoiceStorage.partial_ord cmp index (i + 1) r r'
  | i, Lev.multi a :: r, Lev.multi b :: r' =>
      if index = i then some (cmp a b)
      else ChoiceStorage.partial_ord cmp index (i + 1) r r'
  | _, _, _ => none

/-!
`sus::num::__private::int_log10` of `sus/num/__private/int_log10.h`.
`uint32_t` arithmetic is `Nat` with `% 2 ^ 32` on the additions (the only
operations that could overflow); `&&&`, `^^^`, `>>>` and `/` agree with the
C++ operators on in-range values.
-/

/-- `int_log10::less_than_5(val)` (int_log10.h:29-47), documented for
`0 < val < 100000`.  The constants are
`C1 = 0b011'00000000000000000 - 10`, `C2 = 0b100'00000000000000000 - 100`,
`C3 = 0b111'00000000000000000 - 1000`, `C4 = 0b100'00000000000000000 - 10000`
(393206, 524188, 916504, 514288). -/
def less_than_5 (val : Nat) : Nat :=
  ((((val + 393206) % 2 ^ 32 &&& (val + 524188) % 2 ^ 32) ^^^
      ((val + 916504) % 2 ^ 32 &&& (val + 514288) % 2 ^ 32)) >>> 17)

/-- `int_log10::u32(val)` (int_log10.h:60-67), documented for
`0 < val <= u32::MAX`:
`log = 0; if (val >= 100000) { val /= 100000; log += 5; }
return log + less_than_5(val)`. -/
def int_log10_u32 (val : Nat) : Nat :=
  if 100000 ≤ val then 5 + less_than_5 (val / 100000)
  else 0 + less_than_5 val

/-!  Theorems for the claims. -/

/-- C1 counterexample: for a trivially-movable payload (`IsTrivialMoveCtorOrRef`,
e.g. `int`), `Option`'s move constructor is `= default` (option.h:277-279), a
trivial member-wise move that copies the representation, so the moved-from
source still holds `Some(5)` — the claim's "the source o is in the None state
... including trivially-movable payload types" is false there. -/
theorem C1_trivial_move_keeps_source :
    ¬ ((SusOption.moveCtor true (SusOption.with (5 : Int))).2.is_none = true) := by
  decide

/-- C1 (amended): move-constructing or move-assigning from an `Option` through
the hand-written (non-trivial) paths leaves the source in the `None` state;
for trivially-movable payload types the defaulted trivial move leaves the
source's state and value unchanged. -/
theorem C1_move_source_state {α : Type} (self o : SusOption α) :
    (SusOption.moveCtor false o).2.is_none = true ∧
    (SusOption.moveAssign false self o).2.1.is_none = true ∧
    (SusOption.moveCtor true o).2 = o ∧
    (SusOption.moveAssign true self o).2.1 = o := by
  obtain ⟨⟨os⟩⟩ := o
  obtain ⟨⟨ss⟩⟩ := self
  cases os <;> cases ss <;>
    simp [SusOption.moveCtor, SusOption.moveAssign, SusOption.is_none,
      Storage.take_and_set_none, Storage.set_some, Storage.set_none,
      Storage.state, SusOption.mkEmpty]

/-- C4: `filter` on `Some(v)` with a rejecting predicate destroys the payload
exactly once (`t_.set_none()`, option.h:775) and both the returned `Option`
and the consumed source are `None`; `filter` on a `None` `Option` returns
`None` without invoking the predicate. -/
theorem C4_filter_rejection {α : Type} (v : α) (p : α → Bool)
    (h : p v = false) :
    SusOption.filter (SusOption.with v) p =
      (SusOption.mkEmpty, SusOption.mkEmpty, [v], 1) ∧
    ∀ q : α → Bool,
      SusOption.filter (SusOption.mkEmpty : SusOption α) q =
        (SusOption.mkEmpty, SusOption.mkEmpty, [], 0) := by
  constructor
  · simp [SusOption.filter, SusOption.with, SusOption.mkEmpty,
      Storage.set_none, h]
  · intro q
    simp [SusOption.filter, SusOption.mkEmpty]

theorem C4_filter_rejection_witness :
    SusOption.filter (SusOption.with (5 : Int)) (fun _ => false) =
      (SusOption.mkEmpty, SusOption.mkEmpty, [5], 1) :=
  (C4_filter_rejection 5 (fun _ => false) rfl).1

/-- C5: on a `None` `Option`, `unwrap` and `expect` hit a failed `sus::check`
(fatal, modelled as `none`) while `unwrap_or`, `unwrap_or_else` and
`unwrap_or_default` return the fallback; on `Some(v)` all five produce `v`. -/
theorem C5_unwrap_family {α : Type} [Inhabited α] (v d : α) (f : Unit → α)
    (msg : String) :
    SusOption.unwrap (SusOption.mkEmpty : SusOption α) = none ∧
    SusOption.expect (SusOption.mkEmpty : SusOption α) msg = none ∧
    ((SusOption.mkEmpty : SusOption α).unwrap_or d).1 = d ∧
    ((SusOption.mkEmpty : SusOption α).unwrap_or_else f).1 = f () ∧
    ((SusOption.mkEmpty : SusOption α).unwrap_or_default).1 = (default : α) ∧
    SusOption.unwrap (SusOption.with v) = some (v, SusOption.mkEmpty) ∧
    SusOption.expect (SusOption.with v) msg = some (v, SusOption.mkEmpty) ∧
    ((SusOption.with v).unwrap_or d).1 = v ∧
    ((SusOption.with v).unwrap_or_else f).1 = v ∧
    ((SusOption.with v).unwrap_or_default).1 = v :=
  ⟨rfl, rfl, rfl, rfl, rfl, rfl, rfl, rfl, rfl, rfl⟩

/-- C6: `operator<=>` orders `None` below every `Some`, `None` equivalent to
`None`, and compares payloads when both sides are `Some`; `operator==` makes
two `None`s equal. -/
theorem C6_none_orders_least {α : Type} (cmp : α → α → Ordering)
    (eqv : α → α → Bool) (x y : α) :
    SusOption.cmpOpt cmp SusOption.mkEmpty (SusOption.with x) = Ordering.lt ∧
    SusOption.cmpOpt cmp (SusOption.with x) SusOption.mkEmpty = Ordering.gt ∧
    SusOption.cmpOpt cmp (SusOption.mkEmpty : SusOption α) SusOption.mkEmpty =
      Ordering.eq ∧
    SusOption.cmpOpt cmp (SusOption.with x) (SusOption.with y) = cmp x y ∧
    SusOption.eqOpt eqv (SusOption.mkEmpty : SusOption α) SusOption.mkEmpty =
      true :=
  ⟨rfl, rfl, rfl, rfl, rfl⟩

/-- C7: `Option::with(v)` then `unwrap` (or `take`) yields `v` back, and the
`Option` is in the `None` state immediately after the take. -/
theorem C7_roundtrip {α : Type} (v : α) :
    SusOption.unwrap (SusOption.with v) = some (v, SusOption.mkEmpty) ∧
    (SusOption.with v).take = (SusOption.with v, SusOption.mkEmpty) ∧
    (SusOption.mkEmpty : SusOption α).is_none = true :=
  ⟨rfl, rfl, rfl⟩

/-- C8: for a cloneable non-copyable payload, `clone` on `Some(v)` builds a
new `Option` holding `cloneFn v` (equal to the original when the payload's
clone preserves equality), `clone` on `None` stays `None`, and `clone_from`
with both sides `Some` clone-assigns in place through `clone_from` /
`clone_into` — no payload destructor runs and the slot is reused. -/
theorem C8_clone_behaviour {α : Type} (cloneFn : α → α) (cff : α → α → α)
    (eqv : α → α → Bool) (w v : α) (hclone : eqv (cloneFn v) v = true) :
    SusOption.clone cloneFn (SusOption.with v) =
      SusOption.with (cloneFn v) ∧
    SusOption.clone cloneFn (SusOption.mkEmpty : SusOption α) =
      SusOption.mkEmpty ∧
    SusOption.eqOpt eqv (SusOption.clone cloneFn (SusOption.with v))
      (SusOption.with v) = true ∧
    SusOption.clone_from true cloneFn cff (SusOption.with w)
      (SusOption.with v) = (SusOption.with (cff w v), []) := by
  refine ⟨rfl, rfl, ?_, rfl⟩
  simpa [SusOption.clone, SusOption.eqOpt, SusOption.with] using hclone

theorem C8_clone_behaviour_witness :
    SusOption.clone_from true (fun x : Int => x) (fun _ b => b)
      (SusOption.with (7 : Int)) (SusOption.with (5 : Int)) =
      (SusOption.with (5 : Int), []) :=
  (C8_clone_behaviour (fun x => x) (fun _ b => b) (fun a b => a == b) 7 5
    (by decide)).2.2.2

/-- C9: after `a = b` (copy or move assignment, trivial or hand-written), the
state and value of `a` equal the (pre-move) state and value of `b`; in
particular assigning a `None` `Option` over a `Some` one takes the
hand-written `t_.set_none()` branch, destroying the target's payload and
leaving the target `None`. -/
theorem C9_assign_matches_source {α : Type} (f : Bool) (self o : SusOption α)
    (w : α) :
    (SusOption.copyAssign f self o).1 = o ∧
    (SusOption.moveAssign f self o).1 = o ∧
    SusOption.copyAssign false (SusOption.with w)
      (SusOption.mkEmpty : SusOption α) = (SusOption.mkEmpty, [w]) ∧
    SusOption.moveAssign false (SusOption.with w)
      (SusOption.mkEmpty : SusOption α) =
      (SusOption.mkEmpty, SusOption.mkEmpty, [w]) := by
  obtain ⟨⟨os⟩⟩ := o
  obtain ⟨⟨ss⟩⟩ := self
  cases f <;> cases os <;> cases ss <;>
    simp [SusOption.copyAssign, SusOption.moveAssign, Storage.set_some,
      Storage.set_none, Storage.take_and_set_none, SusOption.mkEmpty,
      SusOption.with]

/-- The `destroy` recursion generalized over the starting level `b`: starting
from level `b` with the remaining levels `levels`, destroying live index
`b + j` succeeds and runs exactly the payload destructor of level `b + j`
(none when that alternative is `Nothing`). -/
theorem ChoiceStorage.destroy_go {α : Type} (levels : List (Lev α)) :
    ∀ (b j : Nat) (h : j < levels.length),
      ChoiceStorage.destroy (b + j) b levels =
        some (if (levels.get ⟨j, h⟩).hasPayload then [b + j] else []) := by
  induction levels with
  | nil => intro b j h; exact absurd h (by simp)
  | cons k rest ih =>
    intro b j h
    cases rest with
    | nil =>
      have hj : j = 0 := by
        have := h; simp at this; omega
      subst hj
      simp [ChoiceStorage.destroy]
    | cons r rs =>
      cases j with
      | zero => simp [ChoiceStorage.destroy]
      | succ n =>
        have hne : ¬ (b + (n + 1) = b) := by omega
        have hrw : b + (n + 1) = (b + 1) + n := by omega
        have hn : n < (r :: rs).length := by
          simp at h ⊢; omega
        rw [ChoiceStorage.destroy, if_neg hne, hrw]
        · simpa using ih (b + 1) n hn
        · exact List.cons_ne_nil r rs

/-- C3: `Storage::destroy(i)` with live alternative `i` recurses from level 0
to level `i` and runs exactly the payload destructor of level `i` (and none
at all when alternative `i` is a `Nothing`): no other alternative is touched,
the live destruction is never skipped, and no destructor runs twice. -/
theorem C3_destroy_exactly_live {α : Type} (levels : List (Lev α)) (i : Nat)
    (h : i < levels.length) :
    ChoiceStorage.destroy i 0 levels =
      some (if (levels.get ⟨i, h⟩).hasPayload then [i] else []) := by
  have hz := ChoiceStorage.destroy_go levels 0 i h
  simpa using hz

theorem C3_destroy_exactly_live_witness :
    ChoiceStorage.destroy 2 0
      [Lev.single (1 : Int), Lev.nothing, Lev.multi 3] = some [2] := by
  have h := C3_destroy_exactly_live
    [Lev.single (1 : Int), Lev.nothing, Lev.multi 3] 2 (by decide)
  simpa using h

/-- C2, the failing input: a choice storage whose level 0 is a multi-value
tuple alternative and whose live alternative is level 1.  `eq`, `weak_ord`
and `partial_ord` recurse past level 0 and compare the level-1 payloads as
the claim says, but `strong_ord` at the non-live multi-value level
(part_006:249) calls `more_.ord(...)`, a member no `Storage` specialization
defines, so the call cannot compile (modelled as `none`). -/
theorem C2_strong_ord_bug :
    ChoiceStorage.strong_ord compare 1 0
      [Lev.multi (1 : Nat), Lev.single 2] [Lev.multi 3, Lev.single 4] =
      none ∧
    ChoiceStorage.weak_ord compare 1 0
      [Lev.multi (1 : Nat), Lev.single 2] [Lev.multi 3, Lev.single 4] =
      some (compare 2 4) ∧
    ChoiceStorage.partial_ord compare 1 0
      [Lev.multi (1 : Nat), Lev.single 2] [Lev.multi 3, Lev.single 4] =
      some (compare 2 4) ∧
    ChoiceStorage.eq (fun a b : Nat => a == b) 1 0
      [Lev.multi (1 : Nat), Lev.single 2] [Lev.multi 3, Lev.single 4] =
      some (2 == 4) := by
  decide

/-! int_log10 correctness (C10). -/

theorem shiftRight_land_distrib (a b k : Nat) :
    (a &&& b) >>> k = (a >>> k) &&& (b >>> k) := by
  apply Nat.eq_of_testBit_eq
  intro i
  simp [Nat.testBit_shiftRight, Nat.testBit_land]

theorem shiftRight_xor_distrib (a b k : Nat) :
    (a ^^^ b) >>> k = (a >>> k) ^^^ (b >>> k) := by
  apply Nat.eq_of_testBit_eq
  intro i
  simp [Nat.testBit_shiftRight, Nat.testBit_xor]

/-- For `val < 100000` none of the four additions reaches `2 ^ 32`, and the
final 17-bit shift distributes over the bitwise operations, so `less_than_5`
is the stated combination of the four quotients by `2 ^ 17 = 131072`. -/
theorem less_than_5_as_div (v : Nat) (hv : v < 100000) :
    less_than_5 v =
      ((v + 393206) / 131072 &&& (v + 524188) / 131072) ^^^
        ((v + 916504) / 131072 &&& (v + 514288) / 131072) := by
  have m1 : (v + 393206) % 2 ^ 32 = v + 393206 := Nat.mod_eq_of_lt (by omega)
  have m2 : (v + 524188) % 2 ^ 32 = v + 524188 := Nat.mod_eq_of_lt (by omega)
  have m3 : (v + 916504) % 2 ^ 32 = v + 916504 := Nat.mod_eq_of_lt (by omega)
  have m4 : (v + 514288) % 2 ^ 32 = v + 514288 := Nat.mod_eq_of_lt (by omega)
  rw [less_than_5, m1, m2, m3, m4, shiftRight_xor_distrib,
    shiftRight_land_distrib, shiftRight_land_distrib,
    Nat.shiftRight_eq_div_pow, Nat.shiftRight_eq_div_pow,
    Nat.shiftRight_eq_div_pow, Nat.shiftRight_eq_div_pow,
    show (2 : Nat) ^ 17 = 131072 from by norm_num]

theorem div_131072_eq (x q : Nat) (h1 : q * 131072 ≤ x)
    (h2 : x < (q + 1) * 131072) : x / 131072 = q :=
  Nat.div_eq_of_lt_le h1 h2

/-- The branchless digit counter agrees with `Nat.log 10` on its documented
domain `0 < val < 100000` (this is the claim's `floor(log10(val))`). -/
theorem less_than_5_eq_log (v : Nat) (h1 : 0 < v) (h2 : v < 100000) :
    less_than_5 v = Nat.log 10 v := by
  rw [less_than_5_as_div v h2]
  rcases (by omega : v < 10 ∨ 10 ≤ v ∧ v < 100 ∨ 100 ≤ v ∧ v < 1000 ∨
      1000 ≤ v ∧ v < 10000 ∨ 10000 ≤ v) with hc | hc | hc | hc | hc
  · have hlog : Nat.log 10 v = 0 :=
      Nat.log_eq_of_pow_le_of_lt_pow (by norm_num; omega) (by norm_num; omega)
    rw [div_131072_eq (v + 393206) 2 (by omega) (by omega),
      div_131072_eq (v + 524188) 3 (by omega) (by omega),
      div_131072_eq (v + 916504) 6 (by omega) (by omega),
      div_131072_eq (v + 514288) 3 (by omega) (by omega), hlog]
    decide
  · have hlog : Nat.log 10 v = 1 :=
      Nat.log_eq_of_pow_le_of_lt_pow (by norm_num; omega) (by norm_num; omega)
    rw [div_131072_eq (v + 393206) 3 (by omega) (by omega),
      div_131072_eq (v + 524188) 3 (by omega) (by omega),
      div_131072_eq (v + 916504) 6 (by omega) (by omega),
      div_131072_eq (v + 514288) 3 (by omega) (by omega), hlog]
    decide
  · have hlog : Nat.log 10 v = 2 :=
      Nat.log_eq_of_pow_le_of_lt_pow (by norm_num; omega) (by norm_num; omega)
    rw [div_131072_eq (v + 393206) 3 (by omega) (by omega),
      div_131072_eq (v + 524188) 4 (by omega) (by omega),
      div_131072_eq (v + 916504) 6 (by omega) (by omega),
      div_131072_eq (v + 514288) 3 (by omega) (by omega), hlog]
    decide
  · have hlog : Nat.log 10 v = 3 :=
      Nat.log_eq_of_pow_le_of_lt_pow (by norm_num; omega) (by norm_num; omega)
    rw [div_131072_eq (v + 393206) 3 (by omega) (by omega),
      div_131072_eq (v + 524188) 4 (by omega) (by omega),
      div_131072_eq (v + 916504) 7 (by omega) (by omega),
      div_131072_eq (v + 514288) 3 (by omega) (by omega), hlog]
    decide
  · have hlog : Nat.log 10 v = 4 :=
      Nat.log_eq_of_pow_le_of_lt_pow (by norm_num; omega) (by norm_num; omega)
    rw [div_131072_eq (v + 393206) 3 (by omega) (by omega),
      div_131072_eq (v + 524188) 4 (by omega) (by omega),
      div_131072_eq (v + 916504) 7 (by omega) (by omega),
      div_131072_eq (v + 514288) 4 (by omega) (by omega), hlog]
    decide

/-- C10: `int_log10::u32` returns `floor(log10 v)` — the number of decimal
digits minus one — for every `uint32_t` value `1 <= v <= 4294967295`, and
`less_than_5` returns `floor(log10 val)` for every `0 < val < 100000`. -/
theorem C10_int_log10_u32_eq_log :
    (∀ v : Nat, 0 < v → v < 100000 → less_than_5 v = Nat.log 10 v) ∧
    (∀ v : Nat, 1 ≤ v → v ≤ 4294967295 →
      int_log10_u32 v = Nat.log 10 v) := by
  refine ⟨less_than_5_eq_log, ?_⟩
  intro v h1 h2
  by_cases hbig : 100000 ≤ v
  · rw [int_log10_u32, if_pos hbig]
    have hw1 : 1 ≤ v / 100000 :=
      (Nat.le_div_iff_mul_le (by norm_num)).2 (by omega)
    have hw2 : v / 100000 < 100000 := by
      have hd : v / 100000 ≤ 4294967295 / 100000 := Nat.div_le_div_right h2
      have he : (4294967295 : Nat) / 100000 = 42949 := by norm_num
      omega
    rw [less_than_5_eq_log (v / 100000) (by omega) hw2]
    have hp1 : 10 ^ Nat.log 10 (v / 100000) ≤ v / 100000 :=
      Nat.pow_log_le_self 10 (by omega)
    have hp2 : v / 100000 < 10 ^ (Nat.log 10 (v / 100000) + 1) :=
      Nat.lt_pow_succ_log_self (by norm_num) (v / 100000)
    have hv1 : 10 ^ (Nat.log 10 (v / 100000) + 5) ≤ v := by
      have hm : 10 ^ Nat.log 10 (v / 100000) * 100000 ≤ v :=
        (Nat.le_div_iff_mul_le (by norm_num)).1 hp1
      calc 10 ^ (Nat.log 10 (v / 100000) + 5)
          = 10 ^ Nat.log 10 (v / 100000) * 100000 := by
            rw [pow_add]; norm_num
        _ ≤ v := hm
    have hv2 : v < 10 ^ (Nat.log 10 (v / 100000) + 5 + 1) := by
      have hm : v < 10 ^ (Nat.log 10 (v / 100000) + 1) * 100000 :=
        (Nat.div_lt_iff_lt_mul (by norm_num)).1 hp2
      calc v < 10 ^ (Nat.log 10 (v / 100000) + 1) * 100000 := hm
        _ = 10 ^ (Nat.log 10 (v / 100000) + 5 + 1) := by
            rw [show Nat.log 10 (v / 100000) + 5 + 1 =
                (Nat.log 10 (v / 100000) + 1) + 5 from by omega,
              pow_add (10 : Nat) (Nat.log 10 (v / 100000) + 1) 5]
            norm_num
    have hlog : Nat.log 10 v = Nat.log 10 (v / 100000) + 5 :=
      Nat.log_eq_of_pow_le_of_lt_pow hv1 hv2
    omega
  · rw [int_log10_u32, if_neg hbig]
    simpa using less_than_5_eq_log v (by omega) (by omega)

theorem C10_int_log10_u32_eq_log_witness :
    (0 < 99999 ∧ less_than_5 99999 = Nat.log 10 99999) ∧
    (1 ≤ 4294967295 ∧
      int_log10_u32 4294967295 = Nat.log 10 4294967295) :=
  ⟨⟨by norm_num,
      C10_int_log10_u32_eq_log.1 99999 (by norm_num) (by norm_num)⟩,
    ⟨by norm_num,
      C10_int_log10_u32_eq_log.2 4294967295 (by norm_num) (by norm_num)⟩⟩
